import Mathlib

/-!
Verification of the DTLS socket facade of `sys/include/net/sock/dtls.h`.

The repository excerpt contains the API contract (declarations and their
documentation) of the facade; the operations themselves live outside the
excerpt.  We therefore embed two layers:

1. the declared C interface (parameter lists and return types), transcribed
   from the header literally; and
2. an executable model of the facade operations, modelled from the spec
   (session multiplexer, session table, handshake pump with microsecond
   timeouts, demultiplexer), over which the behavioural properties are
   proved.
-/

namespace SockDtls

/-! ### Layer 1: the declared C interface, transcribed from the header -/

/-- Parameter names appearing in the facade declarations of
`sys/include/net/sock/dtls.h`. -/
inductive CParamName where
  | sock
  | udp_sock
  | tag
  | method
  | ep
  | remote
  | data
  | maxlen
  | timeout
  | len
deriving DecidableEq

/-- Return types appearing in the facade declarations of
`sys/include/net/sock/dtls.h`. -/
inductive CRetType where
  | void
  | int
  | ssize_t
deriving DecidableEq

/-- Facade functions declared in `sys/include/net/sock/dtls.h`. -/
inductive CFun where
  | init
  | create
  | initServer
  | establishSession
  | closeSession
  | recv
  | send
  | destroy
deriving DecidableEq

/-- Return type of each facade function as declared in the header
(lines 429, 443, 451, 471, 482, 511, 538, 548). -/
def headerRets : List (CFun × CRetType) :=
  [ (CFun.init, CRetType.void)
  , (CFun.create, CRetType.int)
  , (CFun.initServer, CRetType.void)
  , (CFun.establishSession, CRetType.int)
  , (CFun.closeSession, CRetType.void)
  , (CFun.recv, CRetType.ssize_t)
  , (CFun.send, CRetType.ssize_t)
  , (CFun.destroy, CRetType.void) ]

/-- Parameter list of `sock_dtls_establish_session` as declared at
lines 471-472 of the header: `(sock_dtls_t *sock, sock_udp_ep_t *ep,
sock_dtls_session_t *remote)`. -/
def sock_dtls_establish_session_sig_params : List CParamName :=
  [CParamName.sock, CParamName.ep, CParamName.remote]

/-- Parameters referenced by the doc comment of
`sock_dtls_establish_session` (lines 453-470): the `@param` entries name
`sock`, `ep` and `remote`, and the `@return` entry for `-EAGAIN` refers to
`@p timeout` (line 463). -/
def sock_dtls_establish_session_doc_refs : List CParamName :=
  [CParamName.sock, CParamName.ep, CParamName.remote, CParamName.timeout]

/-- The header documents `-ETIMEDOUT, if timed out when trying to establish
session` for `sock_dtls_establish_session` (line 469). -/
def establish_session_doc_has_etimedout : Bool := true

/-! ### Layer 2: the facade model

Error numbers, newlib values as used by the repository.  Only their
distinctness matters to the development. -/

def EAGAIN : Int := 11
def ENOMEM : Int := 12
def EINVAL : Int := 22
def ENOBUFS : Int := 105
def EADDRINUSE : Int := 112
def ETIMEDOUT : Int := 116
def EHOSTUNREACH : Int := 118
def EADDRNOTAVAIL : Int := 125

/-- Sentinel timeout value meaning wait forever (`SOCK_NO_TIMEOUT`,
`UINT32_MAX`). -/
def SOCK_NO_TIMEOUT : Nat := 4294967295

/-- Remote endpoint tuple: address family, address bytes, port, network
interface index.  Session identity is this tuple. -/
structure Ep where
  family : Nat
  addr : List Nat
  port : Nat
  netif : Nat
deriving DecidableEq

/-- Handshake phase of a session. -/
inductive Phase where
  | fresh
  | handshaking
  | established
  | closing
  | closed
deriving DecidableEq

/-- A session table entry: remote endpoint, handshake phase, bound
credential tag snapshot. -/
structure Session where
  remote : Ep
  phase : Phase
  tag : Nat
deriving DecidableEq

/-- The borrowed UDP endpoint: whether a local address is bound, and the
local port. -/
structure UdpEndpoint where
  bound : Bool
  port : Nat
deriving DecidableEq

/-- State of one DTLS sock: the borrowed UDP endpoint, the credential tag,
the server-listening role flag, whether driver resources were released,
the session table, and the queue of already-decoded plaintext datagrams. -/
structure SockState where
  udp : UdpEndpoint
  tag : Nat
  serverListening : Bool
  driverReleased : Bool
  sessions : List Session
  rxBuf : List (Ep × List Nat)
deriving DecidableEq

/-- Terminal handshake errors the driver can report. -/
inductive HsErr where
  | invalidArg
  | noBufs
  | noMem
  | hostUnreach
deriving DecidableEq

/-- Error number surfaced for a terminal handshake error. -/
def hsErrCode : HsErr → Int
  | HsErr.invalidArg => EINVAL
  | HsErr.noBufs => ENOBUFS
  | HsErr.noMem => ENOMEM
  | HsErr.hostUnreach => EHOSTUNREACH

/-- Outcome the network and driver would produce for a handshake with a
given remote: it either reaches the established phase at time `t`
microseconds, or terminally fails at time `t`. -/
inductive HsResult where
  | succeedsAt (t : Nat)
  | failsAt (t : Nat) (e : HsErr)
deriving DecidableEq

/-- The external world: what each handshake would do, and the arrival time
and content of the next inbound plaintext datagram while a `recv` blocks. -/
structure Env where
  hs : Ep → HsResult
  rxAt : Nat × Ep × List Nat

/-- Look up the session for a remote endpoint in the table. -/
def lookupSession (st : SockState) (ep : Ep) : Option Session :=
  st.sessions.find? (fun s => s.remote = ep)

/-- Insert a session, replacing any entry for the same remote (the
client-initiated entry wins on a collision). -/
def insertSession (st : SockState) (s : Session) : SockState :=
  { st with sessions := s :: st.sessions.filter (fun x => x.remote ≠ s.remote) }

/-- Remove every session for a remote endpoint from the table. -/
def removeSession (st : SockState) (ep : Ep) : SockState :=
  { st with sessions := st.sessions.filter (fun x => x.remote ≠ ep) }

/-- Modelled from the spec: `sock_dtls_create` binds the new socket to an
already-bound UDP endpoint, records the credential tag; fails if the UDP
endpoint is not bound.  The body of the operation is absent from the
repository excerpt; this follows section 4.1 of the spec. -/
def freshSock (udp : UdpEndpoint) (tag : Nat) : SockState :=
  { udp := udp, tag := tag, serverListening := false, driverReleased := false
  , sessions := [], rxBuf := [] }

/-- Modelled from the spec: `sock_dtls_create` result.  The `method`
protocol-version hint is forwarded to the external driver and does not
affect the facade state. -/
def sock_dtls_create (udp : UdpEndpoint) (tag : Nat) (_method : Nat) :
    Except Int SockState :=
  if udp.bound then Except.ok (freshSock udp tag) else Except.error (-EINVAL)

/-- Modelled from the spec: `sock_dtls_init_server` marks the socket as
server-listening; idempotent. -/
def sock_dtls_init_server (st : SockState) : SockState :=
  { st with serverListening := true }

/-- The handshaking entry inserted by `establish_session`. -/
def hsSession (st : SockState) (ep : Ep) : Session :=
  { remote := ep, phase := Phase.handshaking, tag := st.tag }

/-- The established entry recorded when a handshake completes. -/
def okSession (st : SockState) (ep : Ep) : Session :=
  { remote := ep, phase := Phase.established, tag := st.tag }

/-- Modelled from the spec: `sock_dtls_establish_session` drives a full
handshake to `ep` with an overall timeout in microseconds (0 is
non-blocking, `SOCK_NO_TIMEOUT` waits forever).  It inserts a handshaking
session, pumps the handshake until it is established or a terminal error or
the deadline; on any failure the inserted session state is torn down. -/
def sock_dtls_establish_session (st : SockState) (env : Env) (ep : Ep)
    (timeout : Nat) : SockState × Int × Option Session :=
  if st.udp.bound = false then (st, -EADDRNOTAVAIL, none)
  else if ep.port = 0 then (st, -EINVAL, none)
  else
    match env.hs ep with
    | HsResult.succeedsAt t =>
      if timeout = SOCK_NO_TIMEOUT ∨ t ≤ timeout then
        (insertSession (insertSession st (hsSession st ep)) (okSession st ep), 0,
          some (okSession st ep))
      else if timeout = 0 then
        (removeSession (insertSession st (hsSession st ep)) ep, -EAGAIN, none)
      else
        (removeSession (insertSession st (hsSession st ep)) ep, -ETIMEDOUT, none)
    | HsResult.failsAt t e =>
      if timeout = SOCK_NO_TIMEOUT ∨ t ≤ timeout then
        (removeSession (insertSession st (hsSession st ep)) ep, -(hsErrCode e), none)
      else if timeout = 0 then
        (removeSession (insertSession st (hsSession st ep)) ep, -EAGAIN, none)
      else
        (removeSession (insertSession st (hsSession st ep)) ep, -ETIMEDOUT, none)

/-- Modelled from the spec: the implicit-handshake path of `send`: first
perform `establish_session` (blocking), then on success send and report the
full plaintext length, otherwise report the handshake error. -/
def implicitHandshakeSend (st : SockState) (env : Env) (ep : Ep)
    (data : List Nat) : SockState × Int :=
  match (sock_dtls_establish_session st env ep SOCK_NO_TIMEOUT).2.2 with
  | some _ => ((sock_dtls_establish_session st env ep SOCK_NO_TIMEOUT).1,
      (data.length : Int))
  | none => ((sock_dtls_establish_session st env ep SOCK_NO_TIMEOUT).1,
      (sock_dtls_establish_session st env ep SOCK_NO_TIMEOUT).2.1)

/-- Modelled from the spec and the header contract: `sock_dtls_send`
encrypts and transmits `data` on the established session for `ep`; with no
session present it first performs the implicit handshake.  Per the header
(line 527) a socket whose UDP endpoint has no local end-point fails with
`-EADDRINUSE`; a zero remote port is `-EINVAL` (line 535); a closed session
surfaces `-EINVAL` (spec section 7). -/
def sock_dtls_send (st : SockState) (env : Env) (ep : Ep) (data : List Nat) :
    SockState × Int :=
  if st.udp.bound = false then (st, -EADDRINUSE)
  else if ep.port = 0 then (st, -EINVAL)
  else
    match lookupSession st ep with
    | some s =>
      if s.phase = Phase.established then (st, (data.length : Int))
      else if s.phase = Phase.closed then (st, -EINVAL)
      else implicitHandshakeSend st env ep data
    | none => implicitHandshakeSend st env ep data

/-- Modelled from the spec: the server-side demultiplexer step: an inbound
datagram from an unknown remote on a server-listening socket synthesizes a
new session, driven to completion before `recv` returns. -/
def serverAccept (st : SockState) (ep : Ep) : SockState :=
  if st.serverListening = true ∧ lookupSession st ep = none then
    insertSession st { remote := ep, phase := Phase.established, tag := st.tag }
  else st

/-- Modelled from the spec: `sock_dtls_recv` first drains already-decoded
plaintext; with timeout 0 it never advances a handshake and returns
`-EAGAIN` when nothing is buffered; otherwise it blocks up to the deadline
for the next inbound datagram.  A datagram longer than `maxlen` yields
`-ENOBUFS` and is discarded.  An unbound local endpoint is
`-EADDRNOTAVAIL` (header line 502). -/
def sock_dtls_recv (st : SockState) (env : Env) (maxlen : Nat)
    (timeout : Nat) : SockState × Int × Option (Ep × List Nat) :=
  if st.udp.bound = false then (st, -EADDRNOTAVAIL, none)
  else
    match st.rxBuf with
    | (ep, d) :: rest =>
      if d.length ≤ maxlen then
        ({ st with rxBuf := rest }, (d.length : Int), some (ep, d))
      else
        ({ st with rxBuf := rest }, -ENOBUFS, none)
    | [] =>
      if timeout = 0 then (st, -EAGAIN, none)
      else
        if timeout = SOCK_NO_TIMEOUT ∨ env.rxAt.1 ≤ timeout then
          if env.rxAt.2.2.length ≤ maxlen then
            (serverAccept st env.rxAt.2.1, (env.rxAt.2.2.length : Int),
              some (env.rxAt.2.1, env.rxAt.2.2))
          else (serverAccept st env.rxAt.2.1, -ENOBUFS, none)
        else (st, -ETIMEDOUT, none)

/-- Modelled from the spec: `sock_dtls_close_session` sends close-notify
(best effort, handled by the external driver), transitions the session to
closed and removes it from the table, releasing driver-side session
state.  It returns no error. -/
def sock_dtls_close_session (st : SockState) (ep : Ep) : SockState :=
  removeSession st ep

/-- Modelled from the spec: close every listed session in turn. -/
def closeAllSessions : List Session → SockState → SockState
  | [], st => st
  | s :: rest, st => closeAllSessions rest (sock_dtls_close_session st s.remote)

/-- Modelled from the spec: `sock_dtls_destroy` closes all sessions in the
table and releases driver resources, leaving the borrowed UDP endpoint
untouched. -/
def sock_dtls_destroy (st : SockState) : SockState :=
  { closeAllSessions st.sessions st with driverReleased := true }

/-- One facade operation, for quantifying over call sequences. -/
inductive FacadeOp where
  | initServer
  | establish (ep : Ep) (timeout : Nat)
  | send (ep : Ep) (data : List Nat)
  | recv (maxlen : Nat) (timeout : Nat)
  | closeSession (ep : Ep)
  | destroy

/-- Apply one facade operation to a sock state. -/
def applyOp (env : Env) (st : SockState) : FacadeOp → SockState
  | FacadeOp.initServer => sock_dtls_init_server st
  | FacadeOp.establish ep timeout => (sock_dtls_establish_session st env ep timeout).1
  | FacadeOp.send ep data => (sock_dtls_send st env ep data).1
  | FacadeOp.recv maxlen timeout => (sock_dtls_recv st env maxlen timeout).1
  | FacadeOp.closeSession ep => sock_dtls_close_session st ep
  | FacadeOp.destroy => sock_dtls_destroy st

/-- Apply a sequence of facade operations. -/
def applyOps (env : Env) (st : SockState) : List FacadeOp → SockState
  | [] => st
  | op :: ops => applyOps env (applyOp env st op) ops

/-- The session-table uniqueness invariant: remotes of table entries are
pairwise distinct. -/
def uniqueRemotes (st : SockState) : Prop :=
  (st.sessions.map Session.remote).Nodup

/-! ### Concrete states for witnesses -/

/-- A concrete remote endpoint. -/
def ep0 : Ep := { family := 6, addr := [0, 0, 0, 1], port := 20220, netif := 1 }

/-- A second concrete remote endpoint. -/
def ep1 : Ep := { family := 6, addr := [0, 0, 0, 2], port := 20220, netif := 1 }

/-- A bound UDP endpoint. -/
def udpBound : UdpEndpoint := { bound := true, port := 12345 }

/-- An unbound UDP endpoint. -/
def udpUnbound : UdpEndpoint := { bound := false, port := 0 }

/-- A concrete sock state with a bound local endpoint and empty table. -/
def stBound : SockState := freshSock udpBound 10

/-- A concrete sock state without a bound local endpoint. -/
def stUnbound : SockState := freshSock udpUnbound 10

/-- An environment whose handshakes all succeed after 1000 microseconds and
whose next inbound datagram is 3 bytes from `ep0` at time 0. -/
def envFast : Env := { hs := fun _ => HsResult.succeedsAt 1000, rxAt := (0, ep0, [1, 2, 3]) }

/-- An environment whose handshakes all succeed only after 600000
microseconds. -/
def envSlow : Env := { hs := fun _ => HsResult.succeedsAt 600000, rxAt := (0, ep0, [1, 2, 3]) }

/-- An environment whose handshakes all terminally fail at 100 microseconds
with a host-unreachable error. -/
def envFail : Env := { hs := fun _ => HsResult.failsAt 100 HsErr.hostUnreach, rxAt := (0, ep0, [1, 2, 3]) }

/-- A concrete sock state with one 5-byte decoded plaintext datagram
buffered. -/
def stRx : SockState := { freshSock udpBound 10 with rxBuf := [(ep0, [1, 2, 3, 4, 5])] }

/-! ### Helper lemmas -/

/-- Every terminal handshake error number is positive. -/
theorem hsErrCode_pos (e : HsErr) : 0 < hsErrCode e := by
  cases e <;> decide

/-- After `removeSession`, the remote is absent from the table. -/
theorem lookupSession_removeSession (st : SockState) (ep : Ep) :
    lookupSession (removeSession st ep) ep = none := by
  simp only [lookupSession, removeSession]
  rw [List.find?_eq_none]
  intro s hs
  have hmem := List.of_mem_filter hs
  simp only [decide_eq_true_eq] at hmem
  simp [hmem]

/-- `insertSession` makes its session the table entry for its remote. -/
theorem lookupSession_insertSession (st : SockState) (s : Session) :
    lookupSession (insertSession st s) s.remote = some s := by
  simp only [lookupSession, insertSession]
  rw [List.find?_cons_of_pos]
  simp

/-- `establish_session` leaves the UDP endpoint untouched. -/
theorem establish_session_udp (st : SockState) (env : Env) (ep : Ep)
    (timeout : Nat) :
    (sock_dtls_establish_session st env ep timeout).1.udp = st.udp := by
  unfold sock_dtls_establish_session
  repeat' split
  all_goals simp [insertSession, removeSession]

/-- The implicit-handshake send path leaves the UDP endpoint untouched. -/
theorem implicitHandshakeSend_udp (st : SockState) (env : Env) (ep : Ep)
    (data : List Nat) :
    (implicitHandshakeSend st env ep data).1.udp = st.udp := by
  unfold implicitHandshakeSend
  cases (sock_dtls_establish_session st env ep SOCK_NO_TIMEOUT).2.2 <;>
    simpa using establish_session_udp st env ep SOCK_NO_TIMEOUT

/-- `send` leaves the UDP endpoint untouched. -/
theorem send_udp (st : SockState) (env : Env) (ep : Ep) (data : List Nat) :
    (sock_dtls_send st env ep data).1.udp = st.udp := by
  unfold sock_dtls_send
  repeat' split
  all_goals
    first
      | rfl
      | exact implicitHandshakeSend_udp st env ep data

/-- `serverAccept` leaves the UDP endpoint untouched. -/
theorem serverAccept_udp (st : SockState) (ep : Ep) :
    (serverAccept st ep).udp = st.udp := by
  unfold serverAccept
  split_ifs <;> simp [insertSession]

/-- `recv` leaves the UDP endpoint untouched. -/
theorem recv_udp (st : SockState) (env : Env) (maxlen timeout : Nat) :
    (sock_dtls_recv st env maxlen timeout).1.udp = st.udp := by
  unfold sock_dtls_recv
  repeat' split
  all_goals
    first
      | rfl
      | exact serverAccept_udp st env.rxAt.2.1

/-- Closing a list of sessions leaves the UDP endpoint untouched. -/
theorem closeAllSessions_udp (xs : List Session) (st : SockState) :
    (closeAllSessions xs st).udp = st.udp := by
  induction xs generalizing st with
  | nil => rfl
  | cons s rest ih =>
    simpa [closeAllSessions, sock_dtls_close_session, removeSession] using
      ih (sock_dtls_close_session st s.remote)

/-- `destroy` leaves the UDP endpoint untouched. -/
theorem destroy_udp (st : SockState) :
    (sock_dtls_destroy st).udp = st.udp := by
  simpa [sock_dtls_destroy] using closeAllSessions_udp st.sessions st

/-- No facade operation changes the borrowed UDP endpoint. -/
theorem applyOp_udp (env : Env) (st : SockState) (op : FacadeOp) :
    (applyOp env st op).udp = st.udp := by
  cases op with
  | initServer => rfl
  | establish ep timeout => exact establish_session_udp st env ep timeout
  | send ep data => exact send_udp st env ep data
  | recv maxlen timeout => exact recv_udp st env maxlen timeout
  | closeSession ep => rfl
  | destroy => exact destroy_udp st

/-- Closing every session listed empties the table when the list covers all
table remotes. -/
theorem closeAllSessions_sessions_nil (xs : List Session) (st : SockState)
    (h : ∀ s ∈ st.sessions, ∃ x ∈ xs, x.remote = s.remote) :
    (closeAllSessions xs st).sessions = [] := by
  induction xs generalizing st with
  | nil =>
    have hnil : st.sessions = [] := by
      apply List.eq_nil_iff_forall_not_mem.mpr
      intro s hs
      rcases h s hs with ⟨x, hx, _⟩
      exact absurd hx (List.not_mem_nil x)
    simpa [closeAllSessions] using hnil
  | cons x rest ih =>
    show (closeAllSessions rest (sock_dtls_close_session st x.remote)).sessions = []
    apply ih
    intro s hs
    have hs2 : s ∈ st.sessions ∧ s.remote ≠ x.remote := by
      simpa [sock_dtls_close_session, removeSession, List.mem_filter] using hs
    rcases h s hs2.1 with ⟨y, hy, hyr⟩
    rcases List.mem_cons.mp hy with h1 | h2
    · exact absurd (h1 ▸ hyr).symm hs2.2
    · exact ⟨y, h2, hyr⟩

/-- `insertSession` preserves the uniqueness of table remotes. -/
theorem uniqueRemotes_insertSession (st : SockState) (s : Session)
    (h : uniqueRemotes st) : uniqueRemotes (insertSession st s) := by
  unfold uniqueRemotes insertSession at *
  rw [List.map_cons]
  refine List.nodup_cons.mpr ⟨?_, ?_⟩
  · intro hmem
    rcases List.mem_map.mp hmem with ⟨x, hx, hxr⟩
    have hne := List.of_mem_filter hx
    simp only [decide_eq_true_eq] at hne
    simp only [bne_iff_ne, ne_eq] at hne
    exact hne hxr
  · exact List.Nodup.sublist (List.Sublist.map _ (List.filter_sublist _)) h

/-- `removeSession` preserves the uniqueness of table remotes. -/
theorem uniqueRemotes_removeSession (st : SockState) (ep : Ep)
    (h : uniqueRemotes st) : uniqueRemotes (removeSession st ep) :=
  List.Nodup.sublist (List.Sublist.map _ (List.filter_sublist _)) h

/-- `establish_session` preserves the uniqueness of table remotes. -/
theorem uniqueRemotes_establish (st : SockState) (env : Env) (ep : Ep)
    (timeout : Nat) (h : uniqueRemotes st) :
    uniqueRemotes (sock_dtls_establish_session st env ep timeout).1 := by
  unfold sock_dtls_establish_session
  repeat' split
  all_goals
    first
      | exact h
      | exact uniqueRemotes_insertSession _ _ (uniqueRemotes_insertSession _ _ h)
      | exact uniqueRemotes_removeSession _ _ (uniqueRemotes_insertSession _ _ h)

/-- The implicit-handshake send path preserves the uniqueness of table
remotes. -/
theorem uniqueRemotes_implicitHandshakeSend (st : SockState) (env : Env)
    (ep : Ep) (data : List Nat) (h : uniqueRemotes st) :
    uniqueRemotes (implicitHandshakeSend st env ep data).1 := by
  unfold implicitHandshakeSend
  repeat' split
  all_goals exact uniqueRemotes_establish st env ep SOCK_NO_TIMEOUT h

/-- `send` preserves the uniqueness of table remotes. -/
theorem uniqueRemotes_send (st : SockState) (env : Env) (ep : Ep)
    (data : List Nat) (h : uniqueRemotes st) :
    uniqueRemotes (sock_dtls_send st env ep data).1 := by
  unfold sock_dtls_send
  repeat' split
  all_goals
    first
      | exact h
      | exact uniqueRemotes_implicitHandshakeSend st env ep data h

/-- `serverAccept` preserves the uniqueness of table remotes. -/
theorem uniqueRemotes_serverAccept (st : SockState) (ep : Ep)
    (h : uniqueRemotes st) : uniqueRemotes (serverAccept st ep) := by
  unfold serverAccept
  split_ifs
  · exact uniqueRemotes_insertSession _ _ h
  · exact h

/-- `recv` preserves the uniqueness of table remotes. -/
theorem uniqueRemotes_recv (st : SockState) (env : Env)
    (maxlen timeout : Nat) (h : uniqueRemotes st) :
    uniqueRemotes (sock_dtls_recv st env maxlen timeout).1 := by
  unfold sock_dtls_recv
  repeat' split
  all_goals
    first
      | exact h
      | exact uniqueRemotes_serverAccept st env.rxAt.2.1 h

/-- Closing a list of sessions preserves the uniqueness of table remotes. -/
theorem uniqueRemotes_closeAllSessions (xs : List Session) (st : SockState)
    (h : uniqueRemotes st) : uniqueRemotes (closeAllSessions xs st) := by
  induction xs generalizing st with
  | nil => exact h
  | cons x rest ih =>
    exact ih _ (uniqueRemotes_removeSession _ _ h)

/-- `destroy` preserves the uniqueness of table remotes. -/
theorem uniqueRemotes_destroy (st : SockState) (h : uniqueRemotes st) :
    uniqueRemotes (sock_dtls_destroy st) :=
  uniqueRemotes_closeAllSessions st.sessions st h

/-- Every facade operation preserves the uniqueness of table remotes. -/
theorem uniqueRemotes_applyOp (env : Env) (st : SockState) (op : FacadeOp)
    (h : uniqueRemotes st) : uniqueRemotes (applyOp env st op) := by
  cases op with
  | initServer => exact h
  | establish ep timeout => exact uniqueRemotes_establish st env ep timeout h
  | send ep data => exact uniqueRemotes_send st env ep data h
  | recv maxlen timeout => exact uniqueRemotes_recv st env maxlen timeout h
  | closeSession ep => exact uniqueRemotes_removeSession st ep h
  | destroy => exact uniqueRemotes_destroy st h

/-- Any sequence of facade operations preserves the uniqueness of table
remotes. -/
theorem uniqueRemotes_applyOps (env : Env) (ops : List FacadeOp)
    (st : SockState) (h : uniqueRemotes st) :
    uniqueRemotes (applyOps env st ops) := by
  induction ops generalizing st with
  | nil => exact h
  | cons op ops ih => exact ih _ (uniqueRemotes_applyOp env st op h)

/-- Over a list whose image under `f` has no duplicates, at most one element
maps to any given value. -/
theorem length_filter_le_one_of_nodup_map {α β : Type} [DecidableEq β]
    (f : α → β) (l : List α) (b : β) (h : (l.map f).Nodup) :
    (l.filter (fun x => f x = b)).length ≤ 1 := by
  induction l with
  | nil => simp
  | cons a l ih =>
    rw [List.map_cons, List.nodup_cons] at h
    by_cases hab : f a = b
    · rw [List.filter_cons_of_pos (by simpa using hab)]
      have hnil : l.filter (fun x => f x = b) = [] := by
        rw [List.filter_eq_nil_iff]
        intro x hx
        simp only [decide_eq_true_eq]
        intro hxb
        exact h.1 (List.mem_map.mpr ⟨x, hx, by rw [hxb, hab]⟩)
      simp [hnil]
    · rw [List.filter_cons_of_neg (by simpa using hab)]
      exact ih h.2

/-- Strengthening the filter predicate cannot increase the match count. -/
theorem length_filter_mono {α : Type} (p q : α → Bool) (l : List α)
    (h : ∀ x, p x = true → q x = true) :
    (l.filter p).length ≤ (l.filter q).length := by
  induction l with
  | nil => simp
  | cons a l ih =>
    by_cases hp : p a = true
    · rw [List.filter_cons_of_pos hp, List.filter_cons_of_pos (h a hp)]
      simpa using ih
    · by_cases hq : q a = true
      · rw [List.filter_cons_of_neg (by simpa using hp), List.filter_cons_of_pos hq]
        exact Nat.le_trans ih (Nat.le_succ _)
      · rw [List.filter_cons_of_neg (by simpa using hp),
          List.filter_cons_of_neg (by simpa using hq)]
        exact ih

/-- `establish_session` either reports the freshly established session,
which the table then holds for the remote, or reports no session. -/
theorem establish_session_cases (st : SockState) (env : Env) (ep : Ep)
    (timeout : Nat) :
    ((sock_dtls_establish_session st env ep timeout).2.2 = some (okSession st ep) ∧
      lookupSession (sock_dtls_establish_session st env ep timeout).1 ep =
        some (okSession st ep)) ∨
    (sock_dtls_establish_session st env ep timeout).2.2 = none := by
  unfold sock_dtls_establish_session
  repeat' split
  all_goals
    first
      | exact Or.inr rfl
      | exact Or.inl ⟨rfl, lookupSession_insertSession _ (okSession st ep)⟩

/-- The negation of a terminal handshake error number is negative. -/
theorem neg_hsErrCode_lt_zero (e : HsErr) : -hsErrCode e < 0 := by
  have := hsErrCode_pos e
  omega

/-- `establish_session` either reports a session or a negative error. -/
theorem establish_session_outcome (st : SockState) (env : Env) (ep : Ep)
    (timeout : Nat) :
    (sock_dtls_establish_session st env ep timeout).2.2.isSome = true ∨
    (sock_dtls_establish_session st env ep timeout).2.1 < 0 := by
  unfold sock_dtls_establish_session
  repeat' split
  all_goals
    first
      | exact Or.inl rfl
      | exact Or.inr (show (-EADDRNOTAVAIL : Int) < 0 by decide)
      | exact Or.inr (show (-EINVAL : Int) < 0 by decide)
      | exact Or.inr (show (-EAGAIN : Int) < 0 by decide)
      | exact Or.inr (show (-ETIMEDOUT : Int) < 0 by decide)
      | exact Or.inr (neg_hsErrCode_lt_zero _)

/-- An `establish_session` that reports no session reports a negative
error number. -/
theorem establish_session_error_neg (st : SockState) (env : Env) (ep : Ep)
    (timeout : Nat)
    (h : (sock_dtls_establish_session st env ep timeout).2.2 = none) :
    (sock_dtls_establish_session st env ep timeout).2.1 < 0 := by
  rcases establish_session_outcome st env ep timeout with hs | hneg
  · rw [h] at hs
    simp at hs
  · exact hneg

/-! ### The claims -/

/-- Claim C1: the spec (and the headers own doc comment) describe a
caller-supplied overall timeout in microseconds for
`sock_dtls_establish_session`, with `-EAGAIN` for timeout 0 without
progress and `-ETIMEDOUT` on an exceeded deadline; the declared signature
(header lines 471-472) however has no timeout parameter at all, even though
the doc comment refers to `@p timeout` (line 463) and documents
`-ETIMEDOUT` (line 469).  The code contradicts its own documentation.  The
modelled operation with the documented timeout semantics satisfies the
claimed behaviour. -/
theorem establish_session_timeout_code_bug :
    (CParamName.timeout ∉ sock_dtls_establish_session_sig_params ∧
      CParamName.timeout ∈ sock_dtls_establish_session_doc_refs ∧
      establish_session_doc_has_etimedout = true) ∧
    (sock_dtls_establish_session stBound envFast ep0 0).2.1 = -EAGAIN ∧
    (sock_dtls_establish_session stBound envSlow ep0 500000).2.1 = -ETIMEDOUT ∧
    (sock_dtls_establish_session stBound envFast ep0 2000).2.1 = 0 := by
  decide

/-- Claim C2: a `send` whose session argument references a remote with no
table entry first performs the implicit handshake; on success it returns
the full plaintext byte count and the session is established in the table,
and if the implicit handshake fails it returns exactly that handshake
error, a negative number, never a smaller non-negative count. -/
theorem send_implicit_handshake (st : SockState) (env : Env) (ep : Ep)
    (data : List Nat) (hb : st.udp.bound = true) (hp : ep.port ≠ 0)
    (hn : lookupSession st ep = none) :
    ((sock_dtls_establish_session st env ep SOCK_NO_TIMEOUT).2.2.isSome = true →
      (sock_dtls_send st env ep data).2 = (data.length : Int) ∧
      ∃ s, lookupSession (sock_dtls_send st env ep data).1 ep = some s ∧
        s.phase = Phase.established) ∧
    ((sock_dtls_establish_session st env ep SOCK_NO_TIMEOUT).2.2 = none →
      (sock_dtls_send st env ep data).2 =
        (sock_dtls_establish_session st env ep SOCK_NO_TIMEOUT).2.1 ∧
      (sock_dtls_send st env ep data).2 < 0) := by
  have hsend : sock_dtls_send st env ep data = implicitHandshakeSend st env ep data := by
    simp [sock_dtls_send, hb, hn, hp]
  constructor
  · intro hsome
    rcases establish_session_cases st env ep SOCK_NO_TIMEOUT with hok | hnone
    · rw [hsend]
      unfold implicitHandshakeSend
      rw [hok.1]
      exact ⟨rfl, okSession st ep, hok.2, rfl⟩
    · rw [hnone] at hsome
      simp at hsome
  · intro hnone
    rw [hsend]
    unfold implicitHandshakeSend
    rw [hnone]
    exact ⟨rfl, establish_session_error_neg st env ep SOCK_NO_TIMEOUT hnone⟩

/-- Witness for claim C2: with a failing handshake environment the send to
a fresh remote surfaces the handshake error `-EHOSTUNREACH`; with a
succeeding one it returns the full 2-byte count. -/
theorem send_implicit_handshake_witness :
    (sock_dtls_send stBound envFail ep0 [1, 2]).2 = -EHOSTUNREACH ∧
    (sock_dtls_send stBound envFast ep0 [1, 2]).2 = 2 := by
  have hfail := (send_implicit_handshake stBound envFail ep0 [1, 2] rfl
    (by decide) rfl).2 (by decide)
  have hok := (send_implicit_handshake stBound envFast ep0 [1, 2] rfl
    (by decide) rfl).1 (by decide)
  refine ⟨?_, hok.1⟩
  rw [hfail.1]
  decide

/-- Claim C3: `establish_session` is atomic on failure: when the call
returns an error, no session for the remote endpoint remains in the
session table (assuming, as in the claims scenario, that none existed
before the attempt; the partial handshaking state inserted during the
attempt is always torn down). -/
theorem establish_session_failure_atomic (st : SockState) (env : Env)
    (ep : Ep) (timeout : Nat) (hpre : lookupSession st ep = none)
    (herr : (sock_dtls_establish_session st env ep timeout).2.1 < 0) :
    lookupSession (sock_dtls_establish_session st env ep timeout).1 ep = none := by
  unfold sock_dtls_establish_session at herr ⊢
  by_cases h1 : st.udp.bound = false
  · simpa [h1] using hpre
  · by_cases h2 : ep.port = 0
    · simpa [h1, h2] using hpre
    · simp only [if_neg h1, if_neg h2] at herr ⊢
      cases henv : env.hs ep <;> simp only [henv] at herr ⊢ <;>
        split_ifs at herr ⊢ <;>
        first
          | exact lookupSession_removeSession _ _
          | simp at herr

/-- Witness for claim C3: a handshake that would only complete after
600000 microseconds, attempted with a 500000 microsecond timeout, times
out and leaves no session in the table. -/
theorem establish_session_failure_atomic_witness :
    lookupSession (sock_dtls_establish_session stBound envSlow ep0 500000).1 ep0 = none :=
  establish_session_failure_atomic stBound envSlow ep0 500000 rfl (by decide)

/-- Claim C4 counterexample: on a socket whose UDP endpoint has no bound
local address, `send` fails with `-EADDRINUSE` (header line 527), not with
`-EADDRNOTAVAIL` as the claim states. -/
theorem send_unbound_wrong_errno :
    (sock_dtls_send stUnbound envFast ep0 [1, 2]).2 = -EADDRINUSE ∧
    (-EADDRINUSE : Int) ≠ -EADDRNOTAVAIL := by
  decide

/-- Claim C4 (amended): a socket whose UDP endpoint has no bound local
address fails `recv` with `-EADDRNOTAVAIL` (header line 502) and `send`
with `-EADDRINUSE` (header line 527); the local endpoint is fixed at
socket creation — no facade operation changes it. -/
theorem unbound_local_errors (st : SockState) (env : Env) (ep : Ep)
    (data : List Nat) (maxlen timeout : Nat) :
    (st.udp.bound = false →
      (sock_dtls_recv st env maxlen timeout).2.1 = -EADDRNOTAVAIL ∧
      (sock_dtls_send st env ep data).2 = -EADDRINUSE) ∧
    (∀ op : FacadeOp, (applyOp env st op).udp = st.udp) := by
  constructor
  · intro h
    constructor
    · simp [sock_dtls_recv, h]
    · simp [sock_dtls_send, h]
  · exact applyOp_udp env st

/-- Witness for claim C4 (amended): the error numbers surfaced on a
concrete unbound socket. -/
theorem unbound_local_errors_witness :
    (sock_dtls_recv stUnbound envFast 16 0).2.1 = -EADDRNOTAVAIL ∧
    (sock_dtls_send stUnbound envFast ep0 [1]).2 = -EADDRINUSE :=
  (unbound_local_errors stUnbound envFast ep0 [1] 16 0).1 rfl

/-- Claim C5: a `recv` whose available decrypted plaintext datagram
exceeds the callers `maxlen` returns `-ENOBUFS`, delivers nothing, and
discards the datagram: it is no longer buffered for a subsequent call, and
no handshake state changes. -/
theorem recv_enobufs_discards (st : SockState) (env : Env) (ep : Ep)
    (d : List Nat) (rest : List (Ep × List Nat)) (maxlen timeout : Nat)
    (hb : st.udp.bound = true) (hbuf : st.rxBuf = (ep, d) :: rest)
    (hlen : maxlen < d.length) :
    (sock_dtls_recv st env maxlen timeout).2.1 = -ENOBUFS ∧
    (sock_dtls_recv st env maxlen timeout).2.2 = none ∧
    (sock_dtls_recv st env maxlen timeout).1.rxBuf = rest ∧
    (sock_dtls_recv st env maxlen timeout).1.sessions = st.sessions := by
  have hnle : ¬ d.length ≤ maxlen := by omega
  simp [sock_dtls_recv, hb, hbuf, hnle]

/-- Witness for claim C5: a buffered 5-byte datagram received into a
3-byte buffer is rejected with `-ENOBUFS` and dropped from the buffer. -/
theorem recv_enobufs_discards_witness :
    (sock_dtls_recv stRx envFast 3 0).2.1 = -ENOBUFS ∧
    (sock_dtls_recv stRx envFast 3 0).1.rxBuf = [] := by
  have h := recv_enobufs_discards stRx envFast ep0 [1, 2, 3, 4, 5] [] 3 0
    rfl rfl (by decide)
  exact ⟨h.1, h.2.2.1⟩

/-- Claim C6: `recv` with timeout 0 never advances any handshake state
machine — the session table is unchanged — it only drains already-decoded
plaintext, and with nothing buffered it returns `-EAGAIN` immediately with
the state untouched. -/
theorem recv_timeout_zero_no_handshake (st : SockState) (env : Env)
    (maxlen : Nat) :
    (sock_dtls_recv st env maxlen 0).1.sessions = st.sessions ∧
    (st.udp.bound = true → st.rxBuf = [] →
      sock_dtls_recv st env maxlen 0 = (st, -EAGAIN, none)) := by
  constructor
  · unfold sock_dtls_recv
    repeat' split
    all_goals simp_all
  · intro hb hbuf
    simp [sock_dtls_recv, hb, hbuf]

/-- Witness for claim C6: on a concrete bound socket with nothing
buffered, `recv` with timeout 0 returns `-EAGAIN` and changes nothing. -/
theorem recv_timeout_zero_no_handshake_witness :
    sock_dtls_recv stBound envFast 16 0 = (stBound, -EAGAIN, none) :=
  (recv_timeout_zero_no_handshake stBound envFast 16).2 rfl rfl

/-- Claim C7: after any sequence of facade operations on a freshly created
socket, the session table holds at most one entry per remote endpoint, and
at most one handshake per remote is in flight. -/
theorem session_table_unique_per_remote (udp : UdpEndpoint) (tag : Nat)
    (env : Env) (ops : List FacadeOp) (ep : Ep) :
    ((applyOps env (freshSock udp tag) ops).sessions.filter
        (fun s => s.remote = ep)).length ≤ 1 ∧
    ((applyOps env (freshSock udp tag) ops).sessions.filter
        (fun s => s.remote = ep ∧ s.phase = Phase.handshaking)).length ≤ 1 := by
  have hu : uniqueRemotes (applyOps env (freshSock udp tag) ops) :=
    uniqueRemotes_applyOps env ops (freshSock udp tag)
      (by simp [uniqueRemotes, freshSock])
  have h1 := length_filter_le_one_of_nodup_map Session.remote
    (applyOps env (freshSock udp tag) ops).sessions ep hu
  refine ⟨h1, Nat.le_trans (length_filter_mono _ _ _ ?_) h1⟩
  intro x hx
  simp only [decide_eq_true_eq] at hx ⊢
  exact hx.1

/-- Claim C8: `close_session` is idempotent: closing an already-closed or
absent session leaves the socket in the same state as a single close, and
the operation (declared `void`) reports no error. -/
theorem close_session_idempotent (st : SockState) (ep : Ep) :
    sock_dtls_close_session (sock_dtls_close_session st ep) ep =
      sock_dtls_close_session st ep ∧
    headerRets.lookup CFun.closeSession = some CRetType.void := by
  constructor
  · simp [sock_dtls_close_session, removeSession, List.filter_filter]
  · decide

/-- Claim C9: `destroy` closes all sessions (the table is empty
afterwards) and releases driver-side resources, but leaves the borrowed
UDP endpoint exactly as it was. -/
theorem destroy_closes_all_keeps_udp (st : SockState) :
    (sock_dtls_destroy st).sessions = [] ∧
    (sock_dtls_destroy st).driverReleased = true ∧
    (sock_dtls_destroy st).udp = st.udp := by
  refine ⟨?_, rfl, destroy_udp st⟩
  have h := closeAllSessions_sessions_nil st.sessions st (fun s hs => ⟨s, hs, rfl⟩)
  simpa [sock_dtls_destroy] using h

/-- Claim C10: `sock_dtls_init_server`, `sock_dtls_close_session` and
`sock_dtls_destroy` are declared `void` in the header, so no failure in
them is observable at the interface, in contrast to the fallible
operations which return `int` or `ssize_t`. -/
theorem void_returns_no_error :
    headerRets.lookup CFun.initServer = some CRetType.void ∧
    headerRets.lookup CFun.closeSession = some CRetType.void ∧
    headerRets.lookup CFun.destroy = some CRetType.void ∧
    headerRets.lookup CFun.recv = some CRetType.ssize_t ∧
    headerRets.lookup CFun.establishSession = some CRetType.int := by
  decide

end SockDtls
